import Mathlib

/-!
Verification of the OxygenMathLite 2D/3D vector algebra library.

The C++ source (`OxygenMathLite.h` and its header variants) is shallowly
embedded here over the real numbers: each C++ value type becomes a Lean
structure, each pure method a Lean function, and each in-place mutator a
function from the old state to the new state.  The precision-dependent
constant `Epsilon` is taken at its default (single-precision) build value
`1e-6`; `real` arithmetic is modelled by exact real arithmetic.
-/

noncomputable section

namespace OxygenMathLite

/-- Source `Constants::Epsilon` for the default (non-`DOUBLE_PRECISION`) build. -/
def Epsilon : ℝ := 1e-6

namespace MathTools

/-- Source `MathTools::Clamp`: `(value < min ? min : (value > max ? max : value))`. -/
def Clamp (value mn mx : ℝ) : ℝ :=
  if value < mn then mn else if value > mx then mx else value

end MathTools

/-- Source `struct Vec2 { real x, y; }`. -/
@[ext]
structure Vec2 where
  x : ℝ
  y : ℝ

namespace Vec2

/-- Source `Vec2::operator+`. -/
def add (a b : Vec2) : Vec2 := ⟨a.x + b.x, a.y + b.y⟩

/-- Source `Vec2::operator-` (binary). -/
def sub (a b : Vec2) : Vec2 := ⟨a.x - b.x, a.y - b.y⟩

/-- Source `Vec2::operator*(real)`; the global `real * Vec2` form is defined to
agree with it (`return v * scalar;`). -/
def smul (v : Vec2) (s : ℝ) : Vec2 := ⟨v.x * s, v.y * s⟩

/-- Source `Vec2::dot`. -/
def dot (a b : Vec2) : ℝ := a.x * b.x + a.y * b.y

/-- Source `Vec2::lengthSquared`. -/
def lengthSquared (v : Vec2) : ℝ := v.x * v.x + v.y * v.y

/-- Source `Vec2::length`: `std::sqrt(x*x + y*y)`. -/
def length (v : Vec2) : ℝ := Real.sqrt (v.x * v.x + v.y * v.y)

/-- Source `Vec2::normalize`: zero vector below `Epsilon`, componentwise division
by the length otherwise. -/
def normalize (v : Vec2) : Vec2 :=
  if v.length < Epsilon then ⟨0, 0⟩ else ⟨v.x / v.length, v.y / v.length⟩

/-- Source `Vec2::normalizeSelf`, modelled as old state → new state. -/
def normalizeSelf (v : Vec2) : Vec2 :=
  if v.length < Epsilon then ⟨0, 0⟩ else ⟨v.x / v.length, v.y / v.length⟩

/-- Source `Vec2::rotate(rads)`. -/
def rotate (v : Vec2) (rads : ℝ) : Vec2 :=
  ⟨v.x * Real.cos rads - v.y * Real.sin rads,
   v.x * Real.sin rads + v.y * Real.cos rads⟩

/-- Source `Vec2::project(o)`: zero when `o.lengthSquared() < Epsilon`, else
`(dot(o) / len2) * o`. -/
def project (v o : Vec2) : Vec2 :=
  if o.lengthSquared < Epsilon then ⟨0, 0⟩
  else o.smul (v.dot o / o.lengthSquared)

/-- Source `Vec2::reflect(normal)`: `*this - 2 * dot(n) * n` with
`n = normal.normalize()`. -/
def reflect (v normal : Vec2) : Vec2 :=
  let n := normal.normalize
  v.sub (n.smul (2 * v.dot n))

/-- Source `Vec2::isZero`: `x == 0 && y == 0`. -/
def isZero (v : Vec2) : Prop := v.x = 0 ∧ v.y = 0

/-- Source `Vec2::isUnit`: `std::fabs(lengthSquared() - 1) < Epsilon`. -/
def isUnit (v : Vec2) : Prop := |v.lengthSquared - 1| < Epsilon

/-- Source `Vec2::operator==`: `x == o.x && y == o.y`. -/
def eqOp (a b : Vec2) : Prop := a.x = b.x ∧ a.y = b.y

/-- Source `Vec2::operator!=`: `!(*this == o)`. -/
def neOp (a b : Vec2) : Prop := ¬ eqOp a b

end Vec2

/-- Source `struct Vec3 { real x, y, z; }`. -/
@[ext]
structure Vec3 where
  x : ℝ
  y : ℝ
  z : ℝ

namespace Vec3

/-- Source `Vec3::operator+`. -/
def add (a b : Vec3) : Vec3 := ⟨a.x + b.x, a.y + b.y, a.z + b.z⟩

/-- Source `Vec3::operator-` (binary). -/
def sub (a b : Vec3) : Vec3 := ⟨a.x - b.x, a.y - b.y, a.z - b.z⟩

/-- Source `Vec3::operator*(real)`; the global `real * Vec3` agrees with it. -/
def smul (v : Vec3) (s : ℝ) : Vec3 := ⟨v.x * s, v.y * s, v.z * s⟩

/-- Source `Vec3::dot`. -/
def dot (a b : Vec3) : ℝ := a.x * b.x + a.y * b.y + a.z * b.z

/-- Source `Vec3::lengthSquared`. -/
def lengthSquared (v : Vec3) : ℝ := v.x * v.x + v.y * v.y + v.z * v.z

/-- Source `Vec3::length`: `std::sqrt(x*x + y*y + z*z)`. -/
def length (v : Vec3) : ℝ := Real.sqrt (v.x * v.x + v.y * v.y + v.z * v.z)

/-- Source `Vec3::normalize`. -/
def normalize (v : Vec3) : Vec3 :=
  if v.length < Epsilon then ⟨0, 0, 0⟩
  else ⟨v.x / v.length, v.y / v.length, v.z / v.length⟩

/-- Source `Vec3::normalizeSelf`, modelled as old state → new state. -/
def normalizeSelf (v : Vec3) : Vec3 :=
  if v.length < Epsilon then ⟨0, 0, 0⟩
  else ⟨v.x / v.length, v.y / v.length, v.z / v.length⟩

/-- Source `Vec3::reflect(normal)`: `*this - 2 * this->dot(n) * n` with
`n = normal.normalize()`. -/
def reflect (v normal : Vec3) : Vec3 :=
  let n := normal.normalize
  v.sub (n.smul (2 * v.dot n))

/-- Source `Vec3::isZero`: `x == 0 && y == 0 && z == 0`. -/
def isZero (v : Vec3) : Prop := v.x = 0 ∧ v.y = 0 ∧ v.z = 0

/-- Source `Vec3::isUnit`: `std::fabs(lengthSquared() - 1) < Epsilon`. -/
def isUnit (v : Vec3) : Prop := |v.lengthSquared - 1| < Epsilon

/-- Source `Vec3::operator==`: `x == o.x && y == o.y && z == o.z`. -/
def eqOp (a b : Vec3) : Prop := a.x = b.x ∧ a.y = b.y ∧ a.z = b.z

/-- Source `Vec3::operator!=`: `!(*this == o)`. -/
def neOp (a b : Vec3) : Prop := ¬ eqOp a b

end Vec3

/-- Source `struct Mat2 { real m00, m01, m10, m11; }` (row-major). -/
structure Mat2 where
  m00 : ℝ
  m01 : ℝ
  m10 : ℝ
  m11 : ℝ

namespace Mat2

/-- Source `Mat2::operator*(const Vec2&)`:
`{m00*v.x + m01*v.y, m10*v.x + m11*v.y}`. -/
def mulVec (m : Mat2) (v : Vec2) : Vec2 :=
  ⟨m.m00 * v.x + m.m01 * v.y, m.m10 * v.x + m.m11 * v.y⟩

/-- Source `Mat2::Rotation(rads)`: `{c, -s, s, c}` with `c = cos rads`,
`s = sin rads`. -/
def Rotation (rads : ℝ) : Mat2 :=
  ⟨Real.cos rads, -Real.sin rads, Real.sin rads, Real.cos rads⟩

end Mat2

namespace Geometry2D

/-- Source `Geometry2D::ClosestPointOnLineSegment(a, b, p)`:
`ab = b - a; t = (p - a).dot(ab) / ab.lengthSquared();
t = Clamp(t, 0, 1); return a + ab * t;`. -/
def ClosestPointOnLineSegment (a b p : Vec2) : Vec2 :=
  let ab := b.sub a
  let t := (p.sub a).dot ab / ab.lengthSquared
  a.add (ab.smul (MathTools.Clamp t 0 1))

end Geometry2D

namespace Integration2D

/-- Source `Integration2D::Euler`: mutates `(position, velocity)`; modelled as a
function returning the updated pair `(position', velocity')`.  Source:
`velocity += acceleration * dt; position += velocity * dt;`. -/
def Euler (position velocity acceleration : Vec2) (dt : ℝ) : Vec2 × Vec2 :=
  let velocity2 := velocity.add (acceleration.smul dt)
  let position2 := position.add (velocity2.smul dt)
  (position2, velocity2)

/-- Source `Integration2D::RK2`: `v_mid = velocity + acceleration * (dt * 0.5);
position += v_mid * dt; velocity += acceleration * dt;`. -/
def RK2 (position velocity acceleration : Vec2) (dt : ℝ) : Vec2 × Vec2 :=
  let vMid := velocity.add (acceleration.smul (dt * 0.5))
  let position2 := position.add (vMid.smul dt)
  let velocity2 := velocity.add (acceleration.smul dt)
  (position2, velocity2)

end Integration2D

/-- C1: `Euler` is semi-implicit: the velocity is advanced first to
`v + a·dt`, and the position update uses that already-updated velocity;
at `p=(0,0)`, `v=(1,0)`, `a=(0,-9.8)`, `dt=0.1` one step gives
`v' = (1,-0.98)` and `p' = (0.1,-0.098)`. -/
theorem euler_semi_implicit (p v a : Vec2) (dt : ℝ) :
    Integration2D.Euler p v a dt =
      (p.add ((v.add (a.smul dt)).smul dt), v.add (a.smul dt)) ∧
    Integration2D.Euler ⟨0, 0⟩ ⟨1, 0⟩ ⟨0, -9.8⟩ 0.1 =
      (⟨0.1, -0.098⟩, ⟨1, -0.98⟩) := by
  refine ⟨rfl, ?_⟩
  simp only [Integration2D.Euler, Vec2.add, Vec2.smul, Prod.mk.injEq,
    Vec2.mk.injEq]
  norm_num

/-- C2: `Vec2::project(onto)` returns the zero vector when
`onto.lengthSquared() < Epsilon`, and otherwise
`((v·onto) / (onto·onto)) * onto`, the component of `v` along `onto`. -/
theorem project_spec (v onto : Vec2) :
    v.project onto =
      if onto.lengthSquared < Epsilon then ⟨0, 0⟩
      else onto.smul (v.dot onto / onto.dot onto) := by
  have h : onto.dot onto = onto.lengthSquared := by
    simp [Vec2.dot, Vec2.lengthSquared]
  unfold Vec2.project
  rw [h]

/-- C3: `normalize` (Vec2 and Vec3) returns the zero vector when
`length < Epsilon` and otherwise divides every component by the length;
it is a total function (never signals an error), and `normalizeSelf`
performs exactly the same case split on the state it mutates. -/
theorem normalize_spec (v : Vec2) (w : Vec3) :
    (v.normalize =
      if v.length < Epsilon then ⟨0, 0⟩
      else ⟨v.x / v.length, v.y / v.length⟩) ∧
    v.normalizeSelf = v.normalize ∧
    (w.normalize =
      if w.length < Epsilon then ⟨0, 0, 0⟩
      else ⟨w.x / w.length, w.y / w.length, w.z / w.length⟩) ∧
    w.normalizeSelf = w.normalize :=
  ⟨rfl, rfl, rfl, rfl⟩

/-- C4: `ClosestPointOnLineSegment(a, b, p)` equals
`a + clamp(((p-a)·(b-a)) / |b-a|², 0, 1) · (b-a)`, and at
`a=(0,0)`, `b=(2,0)`, `p=(3,0.5)` it returns the clamped endpoint `(2,0)`. -/
theorem closest_point_spec (a b p : Vec2) :
    Geometry2D.ClosestPointOnLineSegment a b p =
      a.add ((b.sub a).smul
        (MathTools.Clamp ((p.sub a).dot (b.sub a) / (b.sub a).lengthSquared)
          0 1)) ∧
    Geometry2D.ClosestPointOnLineSegment ⟨0, 0⟩ ⟨2, 0⟩ ⟨3, 0.5⟩ = ⟨2, 0⟩ := by
  refine ⟨rfl, ?_⟩
  simp only [Geometry2D.ClosestPointOnLineSegment, Vec2.sub, Vec2.dot,
    Vec2.lengthSquared, Vec2.add, Vec2.smul, MathTools.Clamp, Vec2.mk.injEq]
  norm_num

/-- C5: for both Vec2 and Vec3, `isUnit` holds iff
`|lengthSquared - 1| < Epsilon` (tolerance-based) while `isZero` holds iff
every component is exactly `0` (no tolerance); in particular the vector
`(1e-7, 0)` has length below `Epsilon` yet is not `isZero`. -/
theorem is_unit_is_zero_spec (v : Vec2) (w : Vec3) :
    (v.isUnit ↔ |v.lengthSquared - 1| < Epsilon) ∧
    (v.isZero ↔ v.x = 0 ∧ v.y = 0) ∧
    (w.isUnit ↔ |w.lengthSquared - 1| < Epsilon) ∧
    (w.isZero ↔ w.x = 0 ∧ w.y = 0 ∧ w.z = 0) ∧
    (Vec2.length ⟨1e-7, 0⟩ < Epsilon ∧ ¬ Vec2.isZero ⟨1e-7, 0⟩) := by
  refine ⟨Iff.rfl, Iff.rfl, Iff.rfl, Iff.rfl, ?_, ?_⟩
  · have h : (1e-7 : ℝ) * 1e-7 + 0 * 0 = (1e-7 : ℝ) ^ 2 := by ring
    rw [Vec2.length, h, Real.sqrt_sq (by norm_num)]
    rw [Epsilon]; norm_num
  · rw [Vec2.isZero]
    norm_num

/-- C6: `RK2` advances the position with the midpoint velocity
`v + a·(dt/2)` and advances the velocity by the full step `a·dt`. -/
theorem rk2_spec (p v a : Vec2) (dt : ℝ) :
    Integration2D.RK2 p v a dt =
      (p.add ((v.add (a.smul (dt / 2))).smul dt), v.add (a.smul dt)) := by
  have h : dt * 0.5 = dt / 2 := by ring
  simp only [Integration2D.RK2, h]

/-- C7: for both Vec2 and Vec3, `operator==` holds exactly when all
corresponding components are equal (which is value equality of the
aggregates, with no tolerance), and `operator!=` is its negation. -/
theorem eq_op_exact (u v : Vec2) (w t : Vec3) :
    (Vec2.eqOp u v ↔ u = v) ∧ (Vec2.neOp u v ↔ u ≠ v) ∧
    (Vec3.eqOp w t ↔ w = t) ∧ (Vec3.neOp w t ↔ w ≠ t) := by
  refine ⟨?_, ?_, ?_, ?_⟩ <;>
    simp [Vec2.eqOp, Vec2.neOp, Vec3.eqOp, Vec3.neOp, Vec2.ext_iff,
      Vec3.ext_iff]

/-- C8: `Mat2::Rotation(rads)` is the matrix with rows
`[cos θ, -sin θ]` and `[sin θ, cos θ]`, and applying `Rotation(π/2)` to
`(1, 0)` yields exactly `(0, 1)` (hence within any tolerance). -/
theorem rotation_matrix_spec (rads : ℝ) :
    Mat2.Rotation rads =
      ⟨Real.cos rads, -Real.sin rads, Real.sin rads, Real.cos rads⟩ ∧
    (Mat2.Rotation (Real.pi / 2)).mulVec ⟨1, 0⟩ = ⟨0, 1⟩ := by
  refine ⟨rfl, ?_⟩
  simp [Mat2.Rotation, Mat2.mulVec]

/-- C9: the matrix path and the method path agree: for every vector and
angle, `Mat2::Rotation(rads) * v` equals `v.rotate(rads)`. -/
theorem rotation_matrix_eq_rotate (v : Vec2) (rads : ℝ) :
    (Mat2.Rotation rads).mulVec v = v.rotate rads := by
  simp only [Mat2.Rotation, Mat2.mulVec, Vec2.rotate, Vec2.mk.injEq]
  constructor <;> ring

/-- C10: when the `normal` argument has length strictly below `Epsilon`,
`reflect` (Vec2 and Vec3) returns the receiver unchanged: the internal
re-normalization yields the zero vector and the subtracted term vanishes. -/
theorem reflect_degenerate_normal (v n : Vec2) (w m : Vec3)
    (h2 : n.length < Epsilon) (h3 : m.length < Epsilon) :
    v.reflect n = v ∧ w.reflect m = w := by
  constructor
  · have hn : n.normalize = ⟨0, 0⟩ := by
      simp only [Vec2.normalize]
      rw [if_pos h2]
    simp [Vec2.reflect, hn, Vec2.sub, Vec2.smul, Vec2.dot, Vec2.ext_iff]
  · have hm : m.normalize = ⟨0, 0, 0⟩ := by
      simp only [Vec3.normalize]
      rw [if_pos h3]
    simp [Vec3.reflect, hm, Vec3.sub, Vec3.smul, Vec3.dot, Vec3.ext_iff]

/-- Witness for C10: the concrete zero normal has length below `Epsilon`,
and reflecting `(1,2)` (resp. `(1,2,3)`) about it returns the vector
unchanged. -/
theorem reflect_degenerate_normal_witness :
    Vec2.length ⟨0, 0⟩ < Epsilon ∧ Vec3.length ⟨0, 0, 0⟩ < Epsilon ∧
    Vec2.reflect ⟨1, 2⟩ ⟨0, 0⟩ = ⟨1, 2⟩ ∧
    Vec3.reflect ⟨1, 2, 3⟩ ⟨0, 0, 0⟩ = ⟨1, 2, 3⟩ := by
  have h2 : Vec2.length ⟨0, 0⟩ < Epsilon := by
    rw [Vec2.length, Epsilon]
    norm_num
  have h3 : Vec3.length ⟨0, 0, 0⟩ < Epsilon := by
    rw [Vec3.length, Epsilon]
    norm_num
  obtain ⟨r2, r3⟩ := reflect_degenerate_normal ⟨1, 2⟩ ⟨0, 0⟩ ⟨1, 2, 3⟩
    ⟨0, 0, 0⟩ h2 h3
  exact ⟨h2, h3, r2, r3⟩

end OxygenMathLite
